import Mathlib

/-!
Shallow embedding of the video-analysis orchestration layer:
the `analyzeVideo` start-and-poll tool, the targeted retrieval tools
(`getTranscript`, `getSceneDescription`), the `processVoiceCommand`
dispatcher, and the HTTP proxy route (`GET`).

The external backend is modelled as an explicit response function passed
to each operation; network/JSON payloads that this layer only passes
through are modelled by a type parameter `α`.
-/

/-- JavaScript truthiness for an optional string: `undefined`/`null` and the
empty string are falsy (`!s` is true exactly then). -/
def jsFalsyStr : Option String → Bool
  | none => true
  | some s => s = ""

/-- JavaScript `a || b` on an optional string `a` with string default `b`:
the default is used when `a` is missing or the empty string. -/
def jsOrElse : Option String → String → String
  | none, d => d
  | some s, d => if s = "" then d else s

/-- Result of one `fetch` + `.json()` round trip: either a parsed value or a
thrown exception (carrying its message). -/
inductive FetchResult (α : Type) where
  | ok (data : α)
  | exn (e : String)
deriving DecidableEq, Repr

/-- The JSON body `analyzeVideo.execute` POSTs to `/api/video-analysis` to
start an analysis (source lines 29–34 of the tool file). -/
structure StartRequestBody where
  video_input : String
  transcribe_model : String
  vision_model : String
  frame_sample_rate : Rat
deriving DecidableEq, Repr

/-- The start request body built by `analyzeVideo.execute` for a given video
URL: a fixed shape mentioning only the URL and hard-coded model settings. -/
def startRequestBody (videoUrl : String) : StartRequestBody :=
  { video_input := videoUrl
    transcribe_model := "gpt-4o-mini-transcribe"
    vision_model := "gpt-4o-mini"
    frame_sample_rate := 1 }

/-- Parsed JSON of one status query response: `{status?, data?, error?}`.
`data` is backend-defined JSON, kept abstract as `α`. -/
structure StatusData (α : Type) where
  status : Option String
  data : α
  error : Option String
deriving DecidableEq, Repr

/-- Result returned by `analyzeVideo.execute`: either
`{success: true, sessionId, analysis}` or `{error: message}`. -/
inductive AnalyzeResult (α : Type) where
  | success (sessionId : String) (analysis : α)
  | error (msg : String)
deriving DecidableEq, Repr

/-- URL of a status query issued by the polling loop:
`/api/video-analysis?sessionId=${session_id}` with the identifier
interpolated verbatim. -/
def statusUrl (sid : String) : String :=
  "/api/video-analysis?sessionId=" ++ sid

/-- The `while (attempts < maxAttempts)` polling loop of
`analyzeVideo.execute` (source lines 47–64). `statusAt i` is the backend's
parsed JSON answer to the `(i+1)`-th status query; `remaining` is the number
of loop iterations still allowed; `i` is the index of the next query.
Returns the result together with the list of status-query URLs issued, in
order. -/
def pollLoop {α : Type} (statusAt : Nat → StatusData α) (sid : String) :
    Nat → Nat → AnalyzeResult α × List String
  | 0, _ => (.error "Analysis timeout", [])
  | n + 1, i =>
    let sd := statusAt i
    if sd.status = some "completed" then
      (.success sid sd.data, [statusUrl sid])
    else if sd.status = some "error" then
      (.error (jsOrElse sd.error "Analysis failed"), [statusUrl sid])
    else
      let rest := pollLoop statusAt sid n (i + 1)
      (rest.1, statusUrl sid :: rest.2)

/-- The polling ceiling (`maxAttempts = 60` in the source). -/
def maxAttempts : Nat := 60

/-- Everything observable about one run of `analyzeVideo.execute`: the start
request body it POSTs, the status-query URLs it fetches (in order), and the
value it returns. -/
structure AnalyzeOutcome (α : Type) where
  startBody : StartRequestBody
  statusUrls : List String
  result : AnalyzeResult α
deriving DecidableEq, Repr

/-- `analyzeVideo.execute` (source lines 21–70), for the executions in which
the start call and every status fetch succeed at the network level.
`startSessionId` is the `session_id` field of the start response (`none` if
missing); `statusAt` gives the backend's answer to each status query. The
`analysisType` parameter is destructured by the source but never used. -/
def analyzeVideoExecute {α : Type} (videoUrl : String)
    (analysisType : Option String) (startSessionId : Option String)
    (statusAt : Nat → StatusData α) : AnalyzeOutcome α :=
  let body := startRequestBody videoUrl
  if jsFalsyStr startSessionId then
    ⟨body, [], .error "Failed to start analysis"⟩
  else
    let sid := startSessionId.getD ""
    let r := pollLoop statusAt sid maxAttempts 0
    ⟨body, r.2, r.1⟩

example :
    (analyzeVideoExecute "u" none (some "s")
      (fun _ => (⟨some "completed", (7 : Nat), none⟩ : StatusData Nat))).result
      = .success "s" 7 := by decide

example :
    (analyzeVideoExecute "u" none none
      (fun _ => (⟨some "completed", (7 : Nat), none⟩ : StatusData Nat)))
      = ⟨startRequestBody "u", [], .error "Failed to start analysis"⟩ := by
  decide

/-- `listStartsWith pat cs` is true when `pat` is an initial segment of
`cs` (character-by-character). -/
def listStartsWith : List Char → List Char → Bool
  | [], _ => true
  | _ :: _, [] => false
  | p :: ps, c :: cs => p = c && listStartsWith ps cs

/-- `hasSubstr pat cs` is true when `pat` occurs contiguously in `cs`. -/
def hasSubstr (pat : List Char) : List Char → Bool
  | [] => listStartsWith pat []
  | c :: cs => listStartsWith pat (c :: cs) || hasSubstr pat cs

/-- Model of JavaScript `s.includes(pat)`: contiguous substring test. -/
def strIncludes (s pat : String) : Bool :=
  hasSubstr pat.data s.data

/-- Model of JavaScript `s.toLowerCase()`: lowercase every character. -/
def strToLower (s : String) : String :=
  String.mk (s.data.map Char.toLower)

example : strIncludes "please pause and describe" "pause" = true := by decide
example : strIncludes "please pause and describe" "play" = false := by decide
example : strIncludes "display video" "play" = true := by decide

/-- Result of the targeted retrieval tools (`getTranscript`,
`getSceneDescription`): `{success: true, <key>: data}` on success, where
`key` records which field the payload is wrapped under, or `{error: msg}`. -/
inductive ToolFetchResult (α : Type) where
  | success (key : String) (data : α)
  | error (msg : String)
deriving DecidableEq, Repr

/-- URL built by `getSceneDescription.execute` (source lines 133–136). -/
def scenesUrl (sessionId : String) (timestamp : Option Int) : String :=
  "/api/video-analysis?sessionId=" ++ sessionId ++ "&action=scenes" ++
    (match timestamp with
     | some t => "&timestamp=" ++ toString t
     | none => "")

/-- URL built by `getTranscript.execute` (source lines 94–97). -/
def transcriptUrl (sessionId : String) (timestamp : Option Int) : String :=
  "/api/video-analysis?sessionId=" ++ sessionId ++ "&action=transcript" ++
    (match timestamp with
     | some t => "&timestamp=" ++ toString t
     | none => "")

/-- `getSceneDescription.execute` (source lines 129–148): one fetch of the
scenes URL, payload returned under the `scenes` key, exceptions converted to
an error string. `fetchResp` maps a URL to the fetch outcome. -/
def getSceneDescriptionExecute {α : Type} (sessionId : String)
    (timestamp : Option Int) (fetchResp : String → FetchResult α) :
    ToolFetchResult α :=
  match fetchResp (scenesUrl sessionId timestamp) with
  | .ok d => .success "scenes" d
  | .exn e => .error ("Failed to get scenes: " ++ e)

/-- `getTranscript.execute` (source lines 90–109): one fetch of the
transcript URL, payload returned under the `transcript` key, exceptions
converted to an error string. -/
def getTranscriptExecute {α : Type} (sessionId : String)
    (timestamp : Option Int) (fetchResp : String → FetchResult α) :
    ToolFetchResult α :=
  match fetchResp (transcriptUrl sessionId timestamp) with
  | .ok d => .success "transcript" d
  | .exn e => .error ("Failed to get transcript: " ++ e)

/-- Result of `processVoiceCommand.execute`: `{action, message}` for local
playback answers and the no-session answers, `{action, data}` when the
dispatcher delegated to a retrieval tool, or `{error: msg}`. -/
inductive VoiceResult (α : Type) where
  | withMessage (action : String) (message : String)
  | withData (action : String) (data : ToolFetchResult α)
  | error (msg : String)
deriving DecidableEq, Repr

/-- `processVoiceCommand.execute` (source lines 234–264): lowercase the
command, then test substrings in the source's fixed branch order. For
`describe`/`transcript` with a truthy session identifier, delegate to the
corresponding retrieval tool (`if (sessionId)` is false for `none` and for
the empty string). -/
def processVoiceCommandExecute {α : Type} (command : String)
    (sessionId : Option String) (fetchResp : String → FetchResult α) :
    VoiceResult α :=
  let commandLower := strToLower command
  if strIncludes commandLower "play" || strIncludes commandLower "resume" then
    .withMessage "play" "Playing video"
  else if strIncludes commandLower "pause" then
    .withMessage "pause" "Video paused"
  else if strIncludes commandLower "stop" then
    .withMessage "stop" "Video stopped"
  else if strIncludes commandLower "describe" then
    if jsFalsyStr sessionId then
      .withMessage "describe" "No active session"
    else
      .withData "describe"
        (getSceneDescriptionExecute (sessionId.getD "") none fetchResp)
  else if strIncludes commandLower "transcript"
      || strIncludes commandLower "transcribe" then
    if jsFalsyStr sessionId then
      .withMessage "transcript" "No active session"
    else
      .withData "transcript"
        (getTranscriptExecute (sessionId.getD "") none fetchResp)
  else
    .error "Command not recognized"

example :
    processVoiceCommandExecute "please pause and describe" (some "abc")
      (fun _ => FetchResult.ok (0 : Nat))
      = .withMessage "pause" "Video paused" := by decide

example :
    processVoiceCommandExecute "describe the scene" (some "abc")
      (fun _ => FetchResult.ok (5 : Nat))
      = .withData "describe" (.success "scenes" 5) := by decide

/-- Uppercase hexadecimal digit for a value below 16. -/
def hexDigit (n : Nat) : Char :=
  if n < 10 then Char.ofNat (48 + n) else Char.ofNat (55 + n)

/-- UTF-8 encoding of a Unicode code point, as its list of byte values. -/
def utf8Bytes (n : Nat) : List Nat :=
  if n < 0x80 then [n]
  else if n < 0x800 then
    [0xC0 + n / 64, 0x80 + n % 64]
  else if n < 0x10000 then
    [0xE0 + n / 4096, 0x80 + n / 64 % 64, 0x80 + n % 64]
  else
    [0xF0 + n / 262144, 0x80 + n / 4096 % 64, 0x80 + n / 64 % 64,
      0x80 + n % 64]

/-- Characters JavaScript's `encodeURIComponent` leaves unescaped:
letters, digits, and `- _ . ! ~ * ' ( )`. -/
def uriUnescaped (c : Char) : Bool :=
  (65 ≤ c.toNat && c.toNat ≤ 90) || (97 ≤ c.toNat && c.toNat ≤ 122)
    || (48 ≤ c.toNat && c.toNat ≤ 57)
    || c ∈ ['-', '_', '.', '!', '~', '*', Char.ofNat 39, '(', ')']

/-- Model of JavaScript `encodeURIComponent`: unescaped characters pass
through, every other character becomes `%XX` for each of its UTF-8 bytes. -/
def encodeURIComponent (s : String) : String :=
  String.mk (s.data.flatMap fun c =>
    if uriUnescaped c then [c]
    else (utf8Bytes c.toNat).flatMap fun b =>
      ['%', hexDigit (b / 16), hexDigit (b % 16)])

example : encodeURIComponent "cat" = "cat" := by decide
example : encodeURIComponent "a b" = "a%20b" := by decide

/-- Parsed backend response at the proxy: its HTTP status code and its JSON
body (abstract `α`). -/
structure BackendResp (α : Type) where
  httpStatus : Nat
  body : α
deriving DecidableEq, Repr

/-- Body of a proxy response: either backend JSON relayed as-is, or the
route's own `{error: msg}` object. -/
inductive ProxyBody (α : Type) where
  | json (data : α)
  | errorObj (msg : String)
deriving DecidableEq, Repr

/-- A proxy response: HTTP status plus body. -/
structure ProxyResponse (α : Type) where
  status : Nat
  body : ProxyBody α
deriving DecidableEq, Repr

/-- The backend endpoint path built by the route's `GET` handler
(route source lines 42–60): default status endpoint, or the
transcript/scenes/comparison/search endpoints selected by `action`, with a
truthy `timestamp` appended where applicable and the search query
URL-encoded (`query || ''`). -/
def buildEndpoint (sid : String) (action timestamp query : Option String) :
    String :=
  if action = some "transcript" then
    "/api/transcript/" ++ sid ++
      (match timestamp with
       | some t => if t = "" then "" else "?timestamp=" ++ t
       | none => "")
  else if action = some "scenes" then
    "/api/scenes/" ++ sid ++
      (match timestamp with
       | some t => if t = "" then "" else "?timestamp=" ++ t
       | none => "")
  else if action = some "comparison" then
    "/api/comparison/" ++ sid
  else if action = some "search" then
    "/api/search?session_id=" ++ sid ++ "&query="
      ++ encodeURIComponent (query.getD "")
  else
    "/api/status/" ++ sid

/-- The route's `GET` handler (route source lines 29–74): `400` when the
`sessionId` query parameter is missing (or empty, which is falsy), otherwise
forward a GET to the built backend endpoint; on a successful fetch + parse,
answer with the backend's JSON body via `NextResponse.json(data)` (which
uses the default status `200`); on an exception answer `500`. `backend`
maps an endpoint path to the fetch outcome. -/
def routeGET {α : Type} (sessionId action timestamp query : Option String)
    (backend : String → FetchResult (BackendResp α)) : ProxyResponse α :=
  if jsFalsyStr sessionId then
    ⟨400, .errorObj "Session ID required"⟩
  else
    match backend (buildEndpoint (sessionId.getD "") action timestamp query) with
    | .ok resp => ⟨200, .json resp.body⟩
    | .exn _ => ⟨500, .errorObj "Failed to fetch analysis data"⟩

example :
    routeGET (α := Nat) (some "abc") (some "search") none (some "cat")
      (fun ep => if ep = "/api/search?session_id=abc&query=cat"
        then .ok ⟨200, 3⟩ else .exn "wrong endpoint")
      = ⟨200, .json 3⟩ := by decide

example :
    routeGET (α := Nat) (some "abc") none none none
      (fun _ => .ok ⟨404, 9⟩) = ⟨200, .json 9⟩ := by decide

/-- The enumerated voice-command intents of the data model. -/
inductive Intent where
  | play
  | pause
  | stop
  | describe
  | transcript
  | unrecognized
deriving DecidableEq, Repr

/-- Modelled from the spec: classification of a free-text command by
case-insensitive substring matching in the fixed priority order
play/resume, pause, stop, describe, transcript/transcribe, otherwise
unrecognized. Stated independently of the dispatcher so the two can be
compared. -/
def specClassify (command : String) : Intent :=
  let cl := strToLower command
  if strIncludes cl "play" || strIncludes cl "resume" then .play
  else if strIncludes cl "pause" then .pause
  else if strIncludes cl "stop" then .stop
  else if strIncludes cl "describe" then .describe
  else if strIncludes cl "transcript" || strIncludes cl "transcribe" then
    .transcript
  else .unrecognized

/-- The intent named by an action tag string. -/
def tagIntent (a : String) : Intent :=
  if a = "play" then .play
  else if a = "pause" then .pause
  else if a = "stop" then .stop
  else if a = "describe" then .describe
  else if a = "transcript" then .transcript
  else .unrecognized

/-- The intent a dispatcher result exhibits: the intent of its `action` tag,
or `unrecognized` for the error result. -/
def intentOfResult {α : Type} : VoiceResult α → Intent
  | .withMessage a _ => tagIntent a
  | .withData a _ => tagIntent a
  | .error _ => .unrecognized

/-- The `?timestamp=` suffix appended by the route for a truthy timestamp
parameter. -/
def tsSuffix : Option String → String
  | some t => if t = "" then "" else "?timestamp=" ++ t
  | none => ""

/-- The part of each backend endpoint that precedes the interpolated session
identifier; independent of the identifier. -/
def epHead (action : Option String) : String :=
  if action = some "transcript" then "/api/transcript/"
  else if action = some "scenes" then "/api/scenes/"
  else if action = some "comparison" then "/api/comparison/"
  else if action = some "search" then "/api/search?session_id="
  else "/api/status/"

/-- The part of each backend endpoint that follows the interpolated session
identifier; independent of the identifier. -/
def epTail (action timestamp query : Option String) : String :=
  if action = some "transcript" then tsSuffix timestamp
  else if action = some "scenes" then tsSuffix timestamp
  else if action = some "comparison" then ""
  else if action = some "search" then
    "&query=" ++ encodeURIComponent (query.getD "")
  else ""

/-- A status response that the polling loop treats as non-terminal: its
`status` field is neither `completed` nor `error`. -/
def nonTerminal {α : Type} (sd : StatusData α) : Prop :=
  sd.status ≠ some "completed" ∧ sd.status ≠ some "error"

instance {α : Type} [DecidableEq α] (sd : StatusData α) :
    Decidable (nonTerminal sd) := by
  unfold nonTerminal; infer_instance

theorem pollLoop_all_nonterminal {α : Type} (statusAt : Nat → StatusData α)
    (sid : String) :
    ∀ (n i : Nat), (∀ j, j < n → nonTerminal (statusAt (i + j))) →
      pollLoop statusAt sid n i
        = (.error "Analysis timeout", List.replicate n (statusUrl sid)) := by
  intro n
  induction n with
  | zero => intro i _; rfl
  | succ n ih =>
    intro i hpre
    have h0 := hpre 0 (Nat.succ_pos n)
    rw [Nat.add_zero] at h0
    simp only [pollLoop]
    rw [if_neg h0.1, if_neg h0.2]
    have hrec := ih (i + 1) (fun j hj => by
      have := hpre (j + 1) (Nat.succ_lt_succ hj)
      rwa [show i + (j + 1) = i + 1 + j by omega] at this)
    rw [hrec]
    simp [List.replicate_succ]

theorem pollLoop_completed {α : Type} (statusAt : Nat → StatusData α)
    (sid : String) :
    ∀ (m n i : Nat), m < n →
      (∀ j, j < m → nonTerminal (statusAt (i + j))) →
      (statusAt (i + m)).status = some "completed" →
      pollLoop statusAt sid n i
        = (.success sid (statusAt (i + m)).data,
            List.replicate (m + 1) (statusUrl sid)) := by
  intro m
  induction m with
  | zero =>
    intro n i hmn hpre hc
    match n, hmn with
    | n + 1, _ =>
      rw [Nat.add_zero] at hc
      simp only [pollLoop]
      rw [if_pos hc]
      simp
  | succ m ih =>
    intro n i hmn hpre hc
    match n, hmn with
    | n + 1, hmn =>
      have h0 := hpre 0 (Nat.succ_pos m)
      rw [Nat.add_zero] at h0
      simp only [pollLoop]
      rw [if_neg h0.1, if_neg h0.2]
      have hrec := ih n (i + 1) (Nat.lt_of_succ_lt_succ hmn)
        (fun j hj => by
          have := hpre (j + 1) (Nat.succ_lt_succ hj)
          rwa [show i + (j + 1) = i + 1 + j by omega] at this)
        (by rwa [show i + 1 + m = i + (m + 1) by omega])
      rw [hrec]
      rw [show i + 1 + m = i + (m + 1) by omega]
      simp [List.replicate_succ]

theorem pollLoop_errored {α : Type} (statusAt : Nat → StatusData α)
    (sid : String) :
    ∀ (m n i : Nat), m < n →
      (∀ j, j < m → nonTerminal (statusAt (i + j))) →
      (statusAt (i + m)).status = some "error" →
      pollLoop statusAt sid n i
        = (.error (jsOrElse (statusAt (i + m)).error "Analysis failed"),
            List.replicate (m + 1) (statusUrl sid)) := by
  intro m
  induction m with
  | zero =>
    intro n i hmn hpre he
    match n, hmn with
    | n + 1, _ =>
      rw [Nat.add_zero] at he
      simp only [pollLoop]
      rw [if_neg (by simp [he]), if_pos he]
      simp
  | succ m ih =>
    intro n i hmn hpre he
    match n, hmn with
    | n + 1, hmn =>
      have h0 := hpre 0 (Nat.succ_pos m)
      rw [Nat.add_zero] at h0
      simp only [pollLoop]
      rw [if_neg h0.1, if_neg h0.2]
      have hrec := ih n (i + 1) (Nat.lt_of_succ_lt_succ hmn)
        (fun j hj => by
          have := hpre (j + 1) (Nat.succ_lt_succ hj)
          rwa [show i + (j + 1) = i + 1 + j by omega] at this)
        (by rwa [show i + 1 + m = i + (m + 1) by omega])
      rw [hrec]
      rw [show i + 1 + m = i + (m + 1) by omega]
      simp [List.replicate_succ]

theorem pollLoop_urls_all {α : Type} (statusAt : Nat → StatusData α)
    (sid : String) :
    ∀ (n i : Nat), ∀ u ∈ (pollLoop statusAt sid n i).2, u = statusUrl sid := by
  intro n
  induction n with
  | zero => intro i u hu; simp [pollLoop] at hu
  | succ n ih =>
    intro i u hu
    simp only [pollLoop] at hu
    by_cases hc : (statusAt i).status = some "completed"
    · rw [if_pos hc] at hu
      simpa using hu
    · rw [if_neg hc] at hu
      by_cases he : (statusAt i).status = some "error"
      · rw [if_pos he] at hu
        simpa using hu
      · rw [if_neg he] at hu
        simp only [List.mem_cons] at hu
        rcases hu with rfl | hu
        · rfl
        · exact ih (i + 1) u hu

theorem pollLoop_success_sid {α : Type} (statusAt : Nat → StatusData α)
    (sid : String) :
    ∀ (n i : Nat) (s : String) (d : α),
      (pollLoop statusAt sid n i).1 = .success s d → s = sid := by
  intro n
  induction n with
  | zero => intro i s d h; simp [pollLoop] at h
  | succ n ih =>
    intro i s d h
    simp only [pollLoop] at h
    by_cases hc : (statusAt i).status = some "completed"
    · rw [if_pos hc] at h
      injection h with h1 _
      exact h1.symm
    · rw [if_neg hc] at h
      by_cases he : (statusAt i).status = some "error"
      · rw [if_pos he] at h
        cases h
      · rw [if_neg he] at h
        exact ih (i + 1) s d h

/-- C1: if the start call returns a (truthy) session identifier and the k-th
status query (1 ≤ k ≤ 60) is the first to report status `completed`, then
`analyzeVideo.execute` issues exactly k status queries, returns
`{success: true, sessionId, analysis: <backend data>}` exactly once, and
issues no further queries. -/
theorem analyzeVideo_completed_on_attempt_k {α : Type} (videoUrl : String)
    (analysisType : Option String) (sid : String)
    (statusAt : Nat → StatusData α) (k : Nat) (hsid : sid ≠ "")
    (hk1 : 1 ≤ k) (hk60 : k ≤ 60)
    (hpre : ∀ j, j < k - 1 → nonTerminal (statusAt j))
    (hc : (statusAt (k - 1)).status = some "completed") :
    analyzeVideoExecute videoUrl analysisType (some sid) statusAt
      = ⟨startRequestBody videoUrl, List.replicate k (statusUrl sid),
          .success sid (statusAt (k - 1)).data⟩ := by
  have hfal : jsFalsyStr (some sid) = false := by
    simp [jsFalsyStr, hsid]
  have hp := pollLoop_completed statusAt sid (k - 1) maxAttempts 0
    (by unfold maxAttempts; omega)
    (fun j hj => by simpa using hpre j hj)
    (by simpa using hc)
  simp only [analyzeVideoExecute, hfal, Bool.false_eq_true, if_false,
    Option.getD_some, hp]
  rw [show k - 1 + 1 = k by omega]
  simp

theorem analyzeVideo_completed_on_attempt_k_witness :
    analyzeVideoExecute "http://v" none (some "abc")
        (fun i => if i < 2 then (⟨some "pending", (0 : Nat), none⟩ : StatusData Nat)
          else ⟨some "completed", 42, none⟩)
      = ⟨startRequestBody "http://v", List.replicate 3 (statusUrl "abc"),
          .success "abc" 42⟩ := by
  have h := analyzeVideo_completed_on_attempt_k "http://v" none "abc"
    (fun i => if i < 2 then (⟨some "pending", (0 : Nat), none⟩ : StatusData Nat)
      else ⟨some "completed", 42, none⟩)
    3 (by decide) (by decide) (by decide) (by decide) (by decide)
  simpa using h

/-- C2: if the start call returns a (truthy) session identifier and every
status query reports a status that is neither `completed` nor `error`, the
polling loop terminates after issuing exactly 60 status queries and the
operation returns `{error: 'Analysis timeout'}`. -/
theorem analyzeVideo_timeout_after_60 {α : Type} (videoUrl : String)
    (analysisType : Option String) (sid : String)
    (statusAt : Nat → StatusData α) (hsid : sid ≠ "")
    (hpend : ∀ j, j < 60 → nonTerminal (statusAt j)) :
    analyzeVideoExecute videoUrl analysisType (some sid) statusAt
      = ⟨startRequestBody videoUrl, List.replicate 60 (statusUrl sid),
          .error "Analysis timeout"⟩ := by
  have hfal : jsFalsyStr (some sid) = false := by
    simp [jsFalsyStr, hsid]
  have hp := pollLoop_all_nonterminal statusAt sid maxAttempts 0
    (fun j hj => by simpa using hpend j hj)
  simp only [analyzeVideoExecute, hfal, Bool.false_eq_true, if_false,
    Option.getD_some, hp]
  rfl

theorem analyzeVideo_timeout_after_60_witness :
    analyzeVideoExecute "http://v" none (some "abc")
        (fun _ => (⟨some "pending", (0 : Nat), none⟩ : StatusData Nat))
      = ⟨startRequestBody "http://v", List.replicate 60 (statusUrl "abc"),
          .error "Analysis timeout"⟩ :=
  analyzeVideo_timeout_after_60 "http://v" none "abc"
    (fun _ => (⟨some "pending", (0 : Nat), none⟩ : StatusData Nat))
    (by decide) (by decide)

/-- C7: if the start response contains no session identifier,
`analyzeVideo.execute` returns `{error: 'Failed to start analysis'}` and
issues zero status queries. -/
theorem analyzeVideo_start_failed {α : Type} (videoUrl : String)
    (analysisType : Option String) (statusAt : Nat → StatusData α) :
    analyzeVideoExecute videoUrl analysisType none statusAt
      = ⟨startRequestBody videoUrl, [], .error "Failed to start analysis"⟩ :=
  rfl

/-- C6 (counterexample to the claim as stated): when the backend reports
`status: 'error'` with the backend-supplied error message being the empty
string, the operation does not return that supplied message; it returns the
generic `'Analysis failed'` instead (JavaScript `||` treats the empty string
as absent). -/
theorem analyzeVideo_error_empty_message_cex :
    (analyzeVideoExecute "http://v" none (some "abc")
        (fun _ => (⟨some "error", (0 : Nat), some ""⟩ : StatusData Nat))).result
      = .error "Analysis failed"
    ∧ (analyzeVideoExecute "http://v" none (some "abc")
        (fun _ => (⟨some "error", (0 : Nat), some ""⟩ : StatusData Nat))).result
      ≠ .error "" := by
  constructor
  · decide
  · decide

/-- C6 (amended): if the start call returns a (truthy) session identifier,
the first k-1 status queries are non-terminal and the k-th reports
`status: 'error'` (k ≤ 60), the polling loop terminates on that attempt with
exactly k status queries issued, returning the backend-supplied error
message when it is a non-empty string and the generic `'Analysis failed'`
when the backend supplied none or the empty string. -/
theorem analyzeVideo_error_terminates {α : Type} (videoUrl : String)
    (analysisType : Option String) (sid : String)
    (statusAt : Nat → StatusData α) (k : Nat) (hsid : sid ≠ "")
    (hk1 : 1 ≤ k) (hk60 : k ≤ 60)
    (hpre : ∀ j, j < k - 1 → nonTerminal (statusAt j))
    (he : (statusAt (k - 1)).status = some "error") :
    analyzeVideoExecute videoUrl analysisType (some sid) statusAt
      = ⟨startRequestBody videoUrl, List.replicate k (statusUrl sid),
          .error (jsOrElse (statusAt (k - 1)).error "Analysis failed")⟩ := by
  have hfal : jsFalsyStr (some sid) = false := by
    simp [jsFalsyStr, hsid]
  have hp := pollLoop_errored statusAt sid (k - 1) maxAttempts 0
    (by unfold maxAttempts; omega)
    (fun j hj => by simpa using hpre j hj)
    (by simpa using he)
  simp only [analyzeVideoExecute, hfal, Bool.false_eq_true, if_false,
    Option.getD_some, hp]
  rw [show k - 1 + 1 = k by omega]
  simp

theorem analyzeVideo_error_terminates_witness :
    analyzeVideoExecute "http://v" none (some "abc")
        (fun i => if i < 1 then (⟨some "pending", (0 : Nat), none⟩ : StatusData Nat)
          else ⟨some "error", 0, some "boom"⟩)
      = ⟨startRequestBody "http://v", List.replicate 2 (statusUrl "abc"),
          .error "boom"⟩ := by
  have h := analyzeVideo_error_terminates "http://v" none "abc"
    (fun i => if i < 1 then (⟨some "pending", (0 : Nat), none⟩ : StatusData Nat)
      else ⟨some "error", 0, some "boom"⟩)
    2 (by decide) (by decide) (by decide) (by decide) (by decide)
  simpa [jsOrElse] using h

/-- C10: `analyzeVideo.execute` ignores its `analysisType` parameter: for a
fixed video URL, start response and backend behaviour, two executions that
differ only in `analysisType` (including omitting it) produce identical
outcomes, and the start request body they POST is the fixed
`{video_input, transcribe_model, vision_model, frame_sample_rate}` shape,
which does not mention `analysisType` at all. -/
theorem analyzeVideo_independent_of_analysisType {α : Type}
    (videoUrl : String) (t1 t2 : Option String)
    (startSessionId : Option String) (statusAt : Nat → StatusData α) :
    analyzeVideoExecute videoUrl t1 startSessionId statusAt
      = analyzeVideoExecute videoUrl t2 startSessionId statusAt
    ∧ (analyzeVideoExecute videoUrl t1 startSessionId statusAt).startBody
      = { video_input := videoUrl
          transcribe_model := "gpt-4o-mini-transcribe"
          vision_model := "gpt-4o-mini"
          frame_sample_rate := 1 } := by
  constructor
  · rfl
  · unfold analyzeVideoExecute
    split
    · rfl
    · rfl

/-- C4: `processVoiceCommand.execute` classifies every free-text command by
case-insensitive substring matching in the fixed priority order play/resume,
pause, stop, describe, transcript/transcribe, otherwise unrecognized, the
first matching branch winning; in particular `"please pause and describe"`
classifies as pause, not describe. -/
theorem processVoiceCommand_priority_order {α : Type} (command : String)
    (sessionId : Option String) (fetchResp : String → FetchResult α) :
    intentOfResult (processVoiceCommandExecute command sessionId fetchResp)
      = specClassify command
    ∧ intentOfResult (processVoiceCommandExecute "please pause and describe"
        sessionId fetchResp) = .pause := by
  constructor
  · simp only [processVoiceCommandExecute, specClassify]
    by_cases h1 : (strIncludes (strToLower command) "play"
        || strIncludes (strToLower command) "resume") = true
    · rw [if_pos h1, if_pos h1]; rfl
    · rw [if_neg h1, if_neg h1]
      by_cases h2 : strIncludes (strToLower command) "pause" = true
      · rw [if_pos h2, if_pos h2]; rfl
      · rw [if_neg h2, if_neg h2]
        by_cases h3 : strIncludes (strToLower command) "stop" = true
        · rw [if_pos h3, if_pos h3]; rfl
        · rw [if_neg h3, if_neg h3]
          by_cases h4 : strIncludes (strToLower command) "describe" = true
          · rw [if_pos h4, if_pos h4]
            by_cases hj : jsFalsyStr sessionId = true
            · rw [if_pos hj]; rfl
            · rw [if_neg hj]; rfl
          · rw [if_neg h4, if_neg h4]
            by_cases h5 : (strIncludes (strToLower command) "transcript"
                || strIncludes (strToLower command) "transcribe") = true
            · rw [if_pos h5, if_pos h5]
              by_cases hj : jsFalsyStr sessionId = true
              · rw [if_pos hj]; rfl
              · rw [if_neg hj]; rfl
            · rw [if_neg h5, if_neg h5]; rfl
  · rfl

/-- C5: for every command classifying as describe (it contains `describe`
and matches no earlier branch), the dispatcher with a (truthy) session
identifier calls `getSceneDescription` with that identifier and returns its
result under `{action: 'describe', data: ...}`; with a missing session
identifier it returns `{action: 'describe', message: 'No active session'}`
and performs no backend call (the result does not depend on the backend). -/
theorem processVoiceCommand_describe_delegates {α : Type} (command : String)
    (sessionId : Option String) (sid : String)
    (fetchResp : String → FetchResult α)
    (hdesc : specClassify command = .describe) :
    (sessionId = some sid → sid ≠ "" →
      processVoiceCommandExecute command sessionId fetchResp
        = .withData "describe" (getSceneDescriptionExecute sid none fetchResp))
    ∧ (sessionId = none →
      processVoiceCommandExecute command sessionId fetchResp
        = .withMessage "describe" "No active session") := by
  simp only [specClassify] at hdesc
  by_cases h1 : (strIncludes (strToLower command) "play"
      || strIncludes (strToLower command) "resume") = true
  · rw [if_pos h1] at hdesc; cases hdesc
  · rw [if_neg h1] at hdesc
    by_cases h2 : strIncludes (strToLower command) "pause" = true
    · rw [if_pos h2] at hdesc; cases hdesc
    · rw [if_neg h2] at hdesc
      by_cases h3 : strIncludes (strToLower command) "stop" = true
      · rw [if_pos h3] at hdesc; cases hdesc
      · rw [if_neg h3] at hdesc
        by_cases h4 : strIncludes (strToLower command) "describe" = true
        · constructor
          · intro hs hne
            subst hs
            have hj : jsFalsyStr (some sid) = false := by
              simp [jsFalsyStr, hne]
            simp only [processVoiceCommandExecute]
            rw [if_neg h1, if_neg h2, if_neg h3, if_pos h4]
            rw [if_neg (by simp [hj])]
            rfl
          · intro hs
            subst hs
            simp only [processVoiceCommandExecute]
            rw [if_neg h1, if_neg h2, if_neg h3, if_pos h4]
            rfl
        · rw [if_neg h4] at hdesc
          by_cases h5 : (strIncludes (strToLower command) "transcript"
              || strIncludes (strToLower command) "transcribe") = true
          · rw [if_pos h5] at hdesc; cases hdesc
          · rw [if_neg h5] at hdesc; cases hdesc

theorem processVoiceCommand_describe_delegates_witness :
    (some "abc" = some "abc" → "abc" ≠ "" →
      processVoiceCommandExecute "describe the scene" (some "abc")
          (fun _ => FetchResult.ok (5 : Nat))
        = .withData "describe"
            (getSceneDescriptionExecute "abc" none (fun _ => FetchResult.ok 5)))
    ∧ (some "abc" = none →
      processVoiceCommandExecute "describe the scene" (some "abc")
          (fun _ => FetchResult.ok (5 : Nat))
        = .withMessage "describe" "No active session") :=
  processVoiceCommand_describe_delegates "describe the scene" (some "abc")
    "abc" (fun _ => FetchResult.ok 5) (by decide)

/-- C3 (counterexample to the claim as stated): with a session identifier
present and a successful backend fetch + parse, the proxy does not pass
through the backend's HTTP status code: for a backend answering with status
404, the proxy answers 200 (`NextResponse.json(data)` uses the default
status). -/
theorem routeGET_status_not_passed_cex :
    (routeGET (α := Nat) (some "abc") none none none
        (fun _ => .ok ⟨404, 9⟩)).status = 200
    ∧ (routeGET (α := Nat) (some "abc") none none none
        (fun _ => .ok ⟨404, 9⟩)).status ≠ 404 := by
  constructor
  · decide
  · decide

/-- C3 (amended): for every GET to the proxy route carrying a session
identifier, when the forwarded backend fetch and JSON parse succeed, the
proxy relays the backend's JSON body unchanged but always with HTTP status
200 regardless of the backend's own status code; 400 is returned exactly
when the session identifier is missing (or empty, which is falsy), and 500
exactly when the forwarding fetch/parse fails. -/
theorem routeGET_passthrough_body {α : Type}
    (sessionId action timestamp query : Option String)
    (backend : String → FetchResult (BackendResp α)) (sid : String)
    (resp : BackendResp α) (e : String) :
    (jsFalsyStr sessionId = true →
      routeGET sessionId action timestamp query backend
        = ⟨400, .errorObj "Session ID required"⟩)
    ∧ (sessionId = some sid → sid ≠ "" →
      backend (buildEndpoint sid action timestamp query) = .ok resp →
      routeGET sessionId action timestamp query backend
        = ⟨200, .json resp.body⟩)
    ∧ (sessionId = some sid → sid ≠ "" →
      backend (buildEndpoint sid action timestamp query) = .exn e →
      routeGET sessionId action timestamp query backend
        = ⟨500, .errorObj "Failed to fetch analysis data"⟩) := by
  refine ⟨fun hf => ?_, fun hs hne hb => ?_, fun hs hne hb => ?_⟩
  · simp only [routeGET, hf, if_true]
  · subst hs
    have hj : jsFalsyStr (some sid) = false := by simp [jsFalsyStr, hne]
    simp only [routeGET, hj, Bool.false_eq_true, if_false, Option.getD_some,
      hb]
  · subst hs
    have hj : jsFalsyStr (some sid) = false := by simp [jsFalsyStr, hne]
    simp only [routeGET, hj, Bool.false_eq_true, if_false, Option.getD_some,
      hb]

theorem routeGET_passthrough_body_witness :
    (jsFalsyStr (some "abc") = true →
      routeGET (α := Nat) (some "abc") none none none (fun _ => .ok ⟨404, 9⟩)
        = ⟨400, .errorObj "Session ID required"⟩)
    ∧ (some "abc" = some "abc" → "abc" ≠ "" →
      (fun _ => (.ok ⟨404, 9⟩ : FetchResult (BackendResp Nat)))
          (buildEndpoint "abc" none none none) = .ok ⟨404, 9⟩ →
      routeGET (α := Nat) (some "abc") none none none (fun _ => .ok ⟨404, 9⟩)
        = ⟨200, .json 9⟩)
    ∧ (some "abc" = some "abc" → "abc" ≠ "" →
      (fun _ => (.ok ⟨404, 9⟩ : FetchResult (BackendResp Nat)))
          (buildEndpoint "abc" none none none) = .exn "down" →
      routeGET (α := Nat) (some "abc") none none none (fun _ => .ok ⟨404, 9⟩)
        = ⟨500, .errorObj "Failed to fetch analysis data"⟩) :=
  routeGET_passthrough_body (some "abc") none none none
    (fun _ => .ok ⟨404, 9⟩) "abc" ⟨404, 9⟩ "down"

/-- C8: for every GET to the proxy route with `action=search`, a (truthy)
session identifier and a query parameter, the endpoint forwarded to the
backend is the search endpoint carrying that session identifier and the
URL-encoded query term, and on a successful backend answer the proxy relays
the backend's JSON body unmodified. -/
theorem routeGET_search_forwarding {α : Type} (sid q : String)
    (timestamp : Option String)
    (backend : String → FetchResult (BackendResp α)) (resp : BackendResp α)
    (hsid : sid ≠ "")
    (hb : backend ("/api/search?session_id=" ++ sid ++ "&query="
        ++ encodeURIComponent q) = .ok resp) :
    buildEndpoint sid (some "search") timestamp (some q)
      = "/api/search?session_id=" ++ sid ++ "&query=" ++ encodeURIComponent q
    ∧ routeGET (some sid) (some "search") timestamp (some q) backend
      = ⟨200, .json resp.body⟩ := by
  have hep : buildEndpoint sid (some "search") timestamp (some q)
      = "/api/search?session_id=" ++ sid ++ "&query="
        ++ encodeURIComponent q := by
    simp [buildEndpoint]
  refine ⟨hep, ?_⟩
  have hj : jsFalsyStr (some sid) = false := by simp [jsFalsyStr, hsid]
  simp only [routeGET, hj, Bool.false_eq_true, if_false, Option.getD_some,
    hep, hb]

theorem routeGET_search_forwarding_witness :
    buildEndpoint "abc" (some "search") none (some "cat")
      = "/api/search?session_id=" ++ "abc" ++ "&query="
        ++ encodeURIComponent "cat"
    ∧ routeGET (some "abc") (some "search") none (some "cat")
        (fun ep => if ep = "/api/search?session_id=abc&query=cat"
          then .ok (⟨200, (3 : Nat)⟩ : BackendResp Nat)
          else .exn "wrong endpoint")
      = ⟨200, .json 3⟩ :=
  routeGET_search_forwarding "abc" "cat" none
    (fun ep => if ep = "/api/search?session_id=abc&query=cat"
      then .ok ⟨200, 3⟩ else .exn "wrong endpoint")
    ⟨200, 3⟩ (by decide) (by decide)

theorem strAppendAssoc (a b c : String) : a ++ b ++ c = a ++ (b ++ c) := by
  cases a
  cases b
  cases c
  show String.mk _ = String.mk _
  rw [List.append_assoc]

/-- C9: a session identifier obtained from the start response is reused
verbatim: every status-query URL issued by the polling loop is
`/api/video-analysis?sessionId=` followed by the identifier unmodified, the
identifier returned on success equals it, and the proxy route interpolates
the caller-supplied session identifier into every backend endpoint
unmodified (the endpoint decomposes as a head and tail that do not depend on
the identifier, with the identifier in between). -/
theorem sessionId_reused_verbatim {α : Type} (videoUrl : String)
    (analysisType : Option String) (sid : String)
    (statusAt : Nat → StatusData α) (u s : String) (d : α)
    (action timestamp query : Option String) (hsid : sid ≠ "")
    (hu : u ∈ (analyzeVideoExecute videoUrl analysisType (some sid)
        statusAt).statusUrls) :
    u = "/api/video-analysis?sessionId=" ++ sid
    ∧ ((analyzeVideoExecute videoUrl analysisType (some sid)
        statusAt).result = .success s d → s = sid)
    ∧ buildEndpoint sid action timestamp query
      = epHead action ++ sid ++ epTail action timestamp query := by
  have hfal : jsFalsyStr (some sid) = false := by simp [jsFalsyStr, hsid]
  simp only [analyzeVideoExecute, hfal, Bool.false_eq_true, if_false,
    Option.getD_some] at hu ⊢
  refine ⟨pollLoop_urls_all statusAt sid maxAttempts 0 u hu,
    fun h => pollLoop_success_sid statusAt sid maxAttempts 0 s d h, ?_⟩
  simp only [buildEndpoint, epHead, epTail]
  by_cases a1 : action = some "transcript"
  · rw [if_pos a1, if_pos a1, if_pos a1]
    rfl
  · rw [if_neg a1, if_neg a1, if_neg a1]
    by_cases a2 : action = some "scenes"
    · rw [if_pos a2, if_pos a2, if_pos a2]
      rfl
    · rw [if_neg a2, if_neg a2, if_neg a2]
      by_cases a3 : action = some "comparison"
      · rw [if_pos a3, if_pos a3, if_pos a3, String.append_empty]
      · rw [if_neg a3, if_neg a3, if_neg a3]
        by_cases a4 : action = some "search"
        · rw [if_pos a4, if_pos a4, if_pos a4]
          rw [strAppendAssoc ("/api/search?session_id=" ++ sid)]
        · rw [if_neg a4, if_neg a4, if_neg a4, String.append_empty]

theorem sessionId_reused_verbatim_witness :
    "/api/video-analysis?sessionId=abc"
      = "/api/video-analysis?sessionId=" ++ "abc"
    ∧ ((analyzeVideoExecute "http://v" none (some "abc")
        (fun _ => (⟨some "completed", (1 : Nat), none⟩ : StatusData Nat))).result
        = .success "abc" 1 → "abc" = "abc")
    ∧ buildEndpoint "abc" (some "search") none (some "cat")
      = epHead (some "search") ++ "abc"
        ++ epTail (some "search") none (some "cat") :=
  sessionId_reused_verbatim "http://v" none "abc"
    (fun _ => (⟨some "completed", (1 : Nat), none⟩ : StatusData Nat))
    "/api/video-analysis?sessionId=abc" "abc" 1
    (some "search") none (some "cat") (by decide) (by decide)
